import Mathlib

/-!
Shallow embedding of `src/sagemaker_tensorflow_container/training.py`:
topology resolution (`_build_tf_config`), the role dispatcher (`train`),
and the liveness poller (`_wait_until_master_is_down`).

Python exceptions are modelled with `Except String`; the launch side
effects of `train` are modelled as a trace of actions.
-/

namespace SagemakerTF

/-- `host_addresses(hosts, port)`: renders each host as `host:port`. -/
def hostAddresses (hosts : List String) (port : String) : List String :=
  hosts.map (fun host => host ++ ":" ++ port)

/-- Python's `list.index`, returning `none` where Python raises `ValueError`:
the index of the first occurrence of `a` in `l`. -/
def listIndex (l : List String) (a : String) : Option Nat :=
  match l with
  | [] => none
  | x :: xs => if x == a then some 0 else (listIndex xs a).map (· + 1)

/-- The `task` entry of a TF_CONFIG: `{"type": ..., "index": ...}`. -/
structure TfTask where
  type : String
  index : Nat
deriving DecidableEq, Repr

/-- The `cluster` entry of a TF_CONFIG. The `ps` and `worker` keys are
optional: the code only inserts them when the corresponding list is
non-empty (`if ps:` / `if workers:`). -/
structure TfCluster where
  master : List String
  ps : Option (List String)
  worker : Option (List String)
deriving DecidableEq, Repr

/-- The full TF_CONFIG dictionary built by `_build_tf_config`. -/
structure TfConfig where
  cluster : TfCluster
  environment : String
  task : TfTask
deriving DecidableEq, Repr

/-- `ps = hosts[:ps_num] if len(hosts) > 1 and ps_num > 0 else None`. -/
def psList (hosts : List String) (psNum : Nat) : Option (List String) :=
  if hosts.length > 1 ∧ psNum > 0 then some (hosts.take psNum) else none

/-- The `cluster` dictionary of `_build_tf_config`: always a `master` key,
a `ps` key only when `ps` is truthy, a `worker` key only when `workers`
is non-empty. -/
def buildCluster (hosts : List String) (psNum : Nat) : TfCluster :=
  { master := hostAddresses (hosts.take 1) "2222"
    ps := match psList hosts psNum with
          | some p => if p.isEmpty then none else some (hostAddresses p "2223")
          | none => none
    worker := if (hosts.drop 1).isEmpty then none
              else some (hostAddresses (hosts.drop 1) "2222") }

/-- The task-type / task-index determination of `_build_tf_config`
(its trailing `if ps_task / elif _is_host_master / else` chain),
including the raised exceptions:
`ValueError` when a `ps` task is requested with `ps is None`, the
`ValueError` of `list.index` when `current_host` is absent from the
relevant sub-list, and the `IndexError` of `hosts[0]` on an empty list. -/
def buildTask (hosts : List String) (currentHost : String) (psNum : Nat)
    (psTask : Bool) : Except String TfTask :=
  if psTask then
    match psList hosts psNum with
    | none =>
      .error "Can not have a ps task if there are no parameter servers in the cluster"
    | some p =>
      match listIndex p currentHost with
      | none => .error "ValueError: current host is not in list"
      | some i => .ok { type := "ps", index := i }
  else
    match hosts with
    | [] => .error "IndexError: list index out of range"
    | h :: _ =>
      if currentHost == h then .ok { type := "master", index := 0 }
      else
        match listIndex (hosts.drop 1) currentHost with
        | none => .error "ValueError: current host is not in list"
        | some i => .ok { type := "worker", index := i }

/-- `_build_tf_config(hosts, current_host, ps_num, ps_task)`. -/
def buildTfConfig (hosts : List String) (currentHost : String)
    (psNum : Nat) (psTask : Bool) : Except String TfConfig :=
  (buildTask hosts currentHost psNum psTask).map
    (fun task => { cluster := buildCluster hosts psNum
                   environment := "cloud"
                   task := task })

/-- The part of `TrainingEnv` that `train` consumes. `psNum = 0` models a
`sagemaker_parameter_server_num` parameter that is absent or zero (both
falsy in the `if len(env.hosts) > 1 and parameter_server_num` test). -/
structure TrainingEnv where
  hosts : List String
  currentHost : String
  psNum : Nat
deriving DecidableEq, Repr

/-- The environment variables handed to a launch: only the `TF_CONFIG`
entry matters to the claims; `none` means `env.to_env_vars()` without
`TF_CONFIG`. -/
structure EnvVars where
  tfConfig : Option TfConfig
deriving DecidableEq, Repr

/-- `_env_vars_with_tf_config(env, ps_task)`: the base environment
variables plus `TF_CONFIG`; a raised exception of `_build_tf_config`
propagates. -/
def envVarsWithTfConfig (env : TrainingEnv) (psTask : Bool) :
    Except String EnvVars :=
  (buildTfConfig env.hosts env.currentHost env.psNum psTask).map
    (fun cfg => { tfConfig := some cfg })

/-- One observable launch action of `train`:
`runModule ev wait` is `framework.modules.run_module(..., env_vars, ...)`
(which installs the module and runs it; `wait = false` is detached);
`writeEnvVars` / `run` are `framework.modules.write_env_vars` and
`framework.modules.run` (running an already-installed module);
`waitUntilMasterIsDown` is the blocking liveness poll against the master. -/
inductive Action where
  | runModule (envVars : EnvVars) (wait : Bool)
  | writeEnvVars (envVars : EnvVars)
  | run (envVars : EnvVars)
  | waitUntilMasterIsDown (master : String)
deriving DecidableEq, Repr

/-- `_run_ps(env)`: launch the parameter-server process detached
(`wait=False`) with the ps-task TF_CONFIG. -/
def runPs (env : TrainingEnv) : Except String (List Action) :=
  (envVarsWithTfConfig env true).map
    (fun ev => [Action.runModule ev false])

/-- `_run_worker(env, install_module)`: with `install_module` the worker
is launched through `run_module` (blocking, installs); without it the
environment variables are written and the already-installed module run. -/
def runWorker (env : TrainingEnv) (installModule : Bool) :
    Except String (List Action) :=
  (envVarsWithTfConfig env false).map
    (fun ev =>
      if installModule then [Action.runModule ev true]
      else [Action.writeEnvVars ev, Action.run ev])

/-- `_should_run_ps_on_this_host`: `current_host in hosts[:ps_num]`. -/
def shouldRunPsOnThisHost (hosts : List String) (currentHost : String)
    (psNum : Nat) : Bool :=
  (hosts.take psNum).contains currentHost

/-- `train(env)` as the trace of launch actions it performs. The
non-distributed branch calls `run_module` with `env.to_env_vars()`
(no TF_CONFIG), blocking. -/
def train (env : TrainingEnv) : Except String (List Action) :=
  if env.hosts.length > 1 ∧ env.psNum > 0 then
    if shouldRunPsOnThisHost env.hosts env.currentHost env.psNum then do
      let psActs ← runPs env
      let wkActs ← runWorker env false
      pure (psActs ++ wkActs ++
        [Action.waitUntilMasterIsDown (env.hosts.headD "")])
    else
      runWorker env true
  else
    .ok [Action.runModule { tfConfig := none } true]

/-- `_wait_until_master_is_down(master)` over a finite prefix of probe
outcomes (`true` = master reachable). Returns
`some (successIterations, totalSleepSeconds)` when a probe fails (the
loop returns); `none` when every listed probe succeeds (the loop is
still running — it has no timeout or retry bound). Each successful
probe is followed by a fixed 10-second sleep. -/
def waitUntilMasterIsDownTrace : List Bool → Option (Nat × Nat)
  | [] => none
  | probe :: rest =>
    if probe then
      (waitUntilMasterIsDownTrace rest).map (fun r => (r.1 + 1, r.2 + 10))
    else
      some (0, 0)

/-- The cluster list registered for a task type, if any. -/
def TfCluster.entry (cl : TfCluster) (role : String) : Option (List String) :=
  if role = "master" then some cl.master
  else if role = "ps" then cl.ps
  else if role = "worker" then cl.worker
  else none

/-- The port under which a role's endpoints are rendered. -/
def rolePort (role : String) : String :=
  if role = "ps" then "2223" else "2222"

instance {ε α : Type} [DecidableEq ε] [DecidableEq α] :
    DecidableEq (Except ε α)
  | .error a, .error b =>
    if h : a = b then .isTrue (by rw [h])
    else .isFalse (by intro he; cases he; exact h rfl)
  | .error _, .ok _ => .isFalse (by intro he; cases he)
  | .ok _, .error _ => .isFalse (by intro he; cases he)
  | .ok a, .ok b =>
    if h : a = b then .isTrue (by rw [h])
    else .isFalse (by intro he; cases he; exact h rfl)

/-! ### Helper lemmas -/

lemma listIndex_some_of_mem {l : List String} {a : String} (h : a ∈ l) :
    ∃ i, listIndex l a = some i := by
  induction l with
  | nil => cases h
  | cons x xs ih =>
    by_cases hx : x = a
    · exact ⟨0, by simp [listIndex, hx]⟩
    · have hmem : a ∈ xs := by
        cases h with
        | head => exact absurd rfl hx
        | tail _ h => exact h
      obtain ⟨i, hi⟩ := ih hmem
      exact ⟨i + 1, by simp [listIndex, hx, hi]⟩

lemma listIndex_eq_none_of_not_mem {l : List String} {a : String}
    (h : a ∉ l) : listIndex l a = none := by
  induction l with
  | nil => rfl
  | cons x xs ih =>
    have hx : ¬(x = a) := fun hxa => h (hxa ▸ List.mem_cons_self x xs)
    have hxs : a ∉ xs := fun hm => h (List.mem_cons_of_mem x hm)
    simp [listIndex, hx, ih hxs]

lemma listIndex_spec {l : List String} {a : String} {i : Nat}
    (h : listIndex l a = some i) : i < l.length ∧ l[i]? = some a := by
  induction l generalizing i with
  | nil => simp [listIndex] at h
  | cons x xs ih =>
    by_cases hx : x = a
    · simp [listIndex, hx] at h
      subst h
      simp [hx]
    · simp [listIndex, hx] at h
      obtain ⟨j, hj, rfl⟩ := h
      obtain ⟨hlt, hget⟩ := ih hj
      exact ⟨by simpa using Nat.succ_lt_succ hlt, by simpa using hget⟩

lemma buildTfConfig_ok_iff {hosts : List String} {c : String} {p : Nat}
    {t : Bool} {cfg : TfConfig} :
    buildTfConfig hosts c p t = .ok cfg ↔
      buildTask hosts c p t = .ok cfg.task ∧
        cfg = ⟨buildCluster hosts p, "cloud", cfg.task⟩ := by
  unfold buildTfConfig
  cases htask : buildTask hosts c p t with
  | error e =>
    simp only [Except.map]
    constructor
    · intro h; cases h
    · rintro ⟨h, -⟩; cases h
  | ok task =>
    simp only [Except.map]
    constructor
    · intro h
      cases h
      exact ⟨rfl, rfl⟩
    · rintro ⟨h, hcfg⟩
      cases h
      rw [hcfg]

lemma buildTfConfig_error_iff {hosts : List String} {c : String} {p : Nat}
    {t : Bool} {e : String} :
    buildTfConfig hosts c p t = .error e ↔ buildTask hosts c p t = .error e := by
  unfold buildTfConfig
  cases htask : buildTask hosts c p t <;> simp [Except.map]

lemma buildCluster_ps (hosts : List String) (p : Nat) :
    (buildCluster hosts p).ps =
      if hosts.length > 1 ∧ p > 0
      then some (hostAddresses (hosts.take p) "2223") else none := by
  unfold buildCluster psList
  by_cases h : hosts.length > 1 ∧ p > 0
  · have hne : hosts.take p ≠ [] := by
      intro hnil
      rw [List.take_eq_nil_iff] at hnil
      rcases hnil with h0 | h0
      · omega
      · rw [h0] at h; simp at h
    have : (hosts.take p).isEmpty = false := by
      rw [Bool.eq_false_iff]
      intro hemp
      exact hne (List.isEmpty_iff.mp hemp)
    simp [h, this]
  · simp [h]

lemma hostAddresses_length (l : List String) (port : String) :
    (hostAddresses l port).length = l.length := by
  simp [hostAddresses]

lemma hostAddresses_getElem? (l : List String) (port : String) (i : Nat) :
    (hostAddresses l port)[i]? = (l[i]?).map (· ++ ":" ++ port) := by
  simp [hostAddresses]

/-! ### Claim theorems -/

/-- C1: for every host list and parameter-server count, a resolved cluster
descriptor contains a `ps` entry iff `len(hosts) > 1` and `psNum > 0`; when
present, the entry lists exactly the first `min(psNum, len(hosts))` hosts
(the slice take clamps `psNum`) rendered as `host:2223`; and for every host
list of length 1 the descriptor has only a `master` entry, with no `ps` or
`worker` entry, regardless of `psNum`. -/
theorem tfConfig_ps_group_iff (hosts : List String) (currentHost : String)
    (psNum : Nat) (psTask : Bool) (cfg : TfConfig)
    (h : buildTfConfig hosts currentHost psNum psTask = .ok cfg) :
    (cfg.cluster.ps.isSome ↔ hosts.length > 1 ∧ psNum > 0) ∧
    (hosts.length > 1 → psNum > 0 →
      cfg.cluster.ps = some (hostAddresses (hosts.take psNum) "2223")) ∧
    (hosts.length = 1 →
      cfg.cluster.master = hostAddresses hosts "2222" ∧
      cfg.cluster.ps = none ∧ cfg.cluster.worker = none) := by
  obtain ⟨-, hcfg⟩ := buildTfConfig_ok_iff.mp h
  rw [hcfg]
  refine ⟨?_, ?_, ?_⟩
  · rw [buildCluster_ps]
    by_cases hc : hosts.length > 1 ∧ psNum > 0 <;> simp [hc]
  · intro h1 h2
    rw [buildCluster_ps]
    simp [h1, h2]
  · intro h1
    obtain ⟨a, ha⟩ := List.length_eq_one.mp h1
    subst ha
    refine ⟨rfl, ?_, rfl⟩
    rw [buildCluster_ps]
    simp

/-- Witness for C1 at `hosts = ["a","b"]`, `currentHost = "a"`,
`psNum = 1`, `psTask = false`. -/
theorem tfConfig_ps_group_iff_witness :
    (((TfConfig.mk ⟨["a:2222"], some ["a:2223"], some ["b:2222"]⟩ "cloud"
        ⟨"master", 0⟩).cluster.ps.isSome ↔
      (["a", "b"] : List String).length > 1 ∧ (1 : Nat) > 0) ∧
    ((["a", "b"] : List String).length > 1 → (1 : Nat) > 0 →
      (TfConfig.mk ⟨["a:2222"], some ["a:2223"], some ["b:2222"]⟩ "cloud"
        ⟨"master", 0⟩).cluster.ps =
        some (hostAddresses ((["a", "b"] : List String).take 1) "2223")) ∧
    ((["a", "b"] : List String).length = 1 →
      (TfConfig.mk ⟨["a:2222"], some ["a:2223"], some ["b:2222"]⟩ "cloud"
        ⟨"master", 0⟩).cluster.master = hostAddresses ["a", "b"] "2222" ∧
      (TfConfig.mk ⟨["a:2222"], some ["a:2223"], some ["b:2222"]⟩ "cloud"
        ⟨"master", 0⟩).cluster.ps = none ∧
      (TfConfig.mk ⟨["a:2222"], some ["a:2223"], some ["b:2222"]⟩ "cloud"
        ⟨"master", 0⟩).cluster.worker = none)) :=
  tfConfig_ps_group_iff ["a", "b"] "a" 1 false
    (TfConfig.mk ⟨["a:2222"], some ["a:2223"], some ["b:2222"]⟩ "cloud"
      ⟨"master", 0⟩) rfl

/-- C2: for `hosts = ["a","b","c"]` and `psNum = 2`, resolving as a
parameter-server process for `"a"` yields task `ps`/index 0, for `"b"`
task `ps`/index 1, and the cluster lists are exactly
`ps = ["a:2223","b:2223"]`, `master = ["a:2222"]`,
`worker = ["b:2222","c:2222"]`. -/
theorem tfConfig_concrete_abc_psTwo :
    buildTfConfig ["a", "b", "c"] "a" 2 true =
      .ok ⟨⟨["a:2222"], some ["a:2223", "b:2223"], some ["b:2222", "c:2222"]⟩,
           "cloud", ⟨"ps", 0⟩⟩ ∧
    buildTfConfig ["a", "b", "c"] "b" 2 true =
      .ok ⟨⟨["a:2222"], some ["a:2223", "b:2223"], some ["b:2222", "c:2222"]⟩,
           "cloud", ⟨"ps", 1⟩⟩ :=
  ⟨rfl, rfl⟩

/-- C3: requesting a parameter-server task when no parameter-server group
exists (`psNum = 0` or a single host) raises the `ValueError`, never
assigning the master or worker role instead. -/
theorem ps_task_without_ps_group_errors (hosts : List String)
    (currentHost : String) (psNum : Nat)
    (h : psNum = 0 ∨ hosts.length = 1) :
    buildTfConfig hosts currentHost psNum true =
      .error "Can not have a ps task if there are no parameter servers in the cluster" := by
  rw [buildTfConfig_error_iff]
  unfold buildTask psList
  have hc : ¬(hosts.length > 1 ∧ psNum > 0) := by
    rcases h with h | h <;> omega
  simp [hc]

/-- Witness for C3 at `hosts = ["a"]`, `psNum = 5`. -/
theorem ps_task_without_ps_group_errors_witness :
    buildTfConfig ["a"] "a" 5 true =
      .error "Can not have a ps task if there are no parameter servers in the cluster" :=
  ps_task_without_ps_group_errors ["a"] "a" 5 (Or.inr rfl)

/-- C8: topology resolution is a deterministic pure function — two calls
on identical argument tuples yield identical results. -/
theorem buildTfConfig_deterministic (hosts : List String)
    (currentHost : String) (psNum : Nat) (psTask : Bool) :
    buildTfConfig hosts currentHost psNum psTask =
      buildTfConfig hosts currentHost psNum psTask := rfl

/-- C9: when both the parameter-server and the worker resolution succeed
on the same arguments, the two descriptors agree on the `cluster` and
`environment` fields (they can differ only in `task`). -/
theorem ps_and_worker_config_same_cluster (hosts : List String)
    (currentHost : String) (psNum : Nat) (cfgPs cfgWk : TfConfig)
    (h1 : buildTfConfig hosts currentHost psNum true = .ok cfgPs)
    (h2 : buildTfConfig hosts currentHost psNum false = .ok cfgWk) :
    cfgPs.cluster = cfgWk.cluster ∧ cfgPs.environment = cfgWk.environment := by
  obtain ⟨-, e1⟩ := buildTfConfig_ok_iff.mp h1
  obtain ⟨-, e2⟩ := buildTfConfig_ok_iff.mp h2
  rw [e1, e2]
  exact ⟨rfl, rfl⟩

/-- Witness for C9 at `hosts = ["a","b"]`, `currentHost = "a"`,
`psNum = 1`. -/
theorem ps_and_worker_config_same_cluster_witness :
    (TfConfig.mk ⟨["a:2222"], some ["a:2223"], some ["b:2222"]⟩ "cloud"
        ⟨"ps", 0⟩).cluster =
      (TfConfig.mk ⟨["a:2222"], some ["a:2223"], some ["b:2222"]⟩ "cloud"
        ⟨"master", 0⟩).cluster ∧
    (TfConfig.mk ⟨["a:2222"], some ["a:2223"], some ["b:2222"]⟩ "cloud"
        ⟨"ps", 0⟩).environment =
      (TfConfig.mk ⟨["a:2222"], some ["a:2223"], some ["b:2222"]⟩ "cloud"
        ⟨"master", 0⟩).environment :=
  ps_and_worker_config_same_cluster ["a", "b"] "a" 1 _ _ rfl rfl

/-- C4: with `psTask = false`, role precedence on a non-empty host list
`h0 :: tl`: if `currentHost = h0` the role is `master` with index 0;
otherwise the role is `worker` with index equal to the position of
`currentHost` within `workers = hosts[1:]`; and if `currentHost` is
absent from that sub-list, resolution raises the `ValueError` of
`list.index` instead of defaulting the index to 0. -/
theorem worker_role_precedence (h0 : String) (tl : List String)
    (currentHost : String) (psNum : Nat) :
    (currentHost = h0 →
      buildTfConfig (h0 :: tl) currentHost psNum false =
        .ok ⟨buildCluster (h0 :: tl) psNum, "cloud", ⟨"master", 0⟩⟩) ∧
    (currentHost ≠ h0 → ∀ i, listIndex tl currentHost = some i →
      buildTfConfig (h0 :: tl) currentHost psNum false =
        .ok ⟨buildCluster (h0 :: tl) psNum, "cloud", ⟨"worker", i⟩⟩) ∧
    (currentHost ≠ h0 → currentHost ∉ tl →
      buildTfConfig (h0 :: tl) currentHost psNum false =
        .error "ValueError: current host is not in list") := by
  refine ⟨?_, ?_, ?_⟩
  · intro hcur
    subst hcur
    simp [buildTfConfig, buildTask, Except.map]
  · intro hne i hidx
    have hb : (currentHost == h0) = false := by simp [hne]
    simp [buildTfConfig, buildTask, hb, hidx, Except.map]
  · intro hne hmem
    have hb : (currentHost == h0) = false := by simp [hne]
    simp [buildTfConfig, buildTask, hb,
      listIndex_eq_none_of_not_mem hmem, Except.map]

/-- Witness for C4 at `hosts = ["a","b","c"]`, `psNum = 0`: `"a"` resolves
as master, `"c"` as worker with index 1, and the absent host `"z"`
raises the `ValueError`. -/
theorem worker_role_precedence_witness :
    buildTfConfig ["a", "b", "c"] "a" 0 false =
      .ok ⟨buildCluster ["a", "b", "c"] 0, "cloud", ⟨"master", 0⟩⟩ ∧
    buildTfConfig ["a", "b", "c"] "c" 0 false =
      .ok ⟨buildCluster ["a", "b", "c"] 0, "cloud", ⟨"worker", 1⟩⟩ ∧
    buildTfConfig ["a", "b", "c"] "z" 0 false =
      .error "ValueError: current host is not in list" :=
  ⟨(worker_role_precedence "a" ["b", "c"] "a" 0).1 rfl,
   (worker_role_precedence "a" ["b", "c"] "c" 0).2.1 (by decide) 1 rfl,
   (worker_role_precedence "a" ["b", "c"] "z" 0).2.2 (by decide) (by decide)⟩

/-- C5 counterexample: at `hosts = ["a"]`, `psNum = 0`, topology
resolution with `psTask = false` does yield a descriptor, yet the sole
blocking launch performed by `train` carries no TF_CONFIG at all — in
particular not that descriptor, contradicting the claim that the
resolved cluster descriptor is part of the environment handed to the
single launch. -/
theorem single_launch_lacks_tf_config :
    train ⟨["a"], "a", 0⟩ =
      .ok [Action.runModule { tfConfig := none } true] ∧
    buildTfConfig ["a"] "a" 0 false =
      .ok ⟨⟨["a:2222"], none, none⟩, "cloud", ⟨"master", 0⟩⟩ ∧
    train ⟨["a"], "a", 0⟩ ≠
      .ok [Action.runModule
        { tfConfig := some ⟨⟨["a:2222"], none, none⟩, "cloud", ⟨"master", 0⟩⟩ }
        true] := by
  refine ⟨rfl, rfl, ?_⟩
  decide

/-- C5 (amended): when `len(hosts) = 1` or `psNum` is zero/absent, `train`
launches the training runtime as the sole blocking process with the plain
environment variables — no topology descriptor is resolved or included in
that launch's environment. -/
theorem single_host_launch_plain_env (env : TrainingEnv)
    (h : env.hosts.length = 1 ∨ env.psNum = 0) :
    train env = .ok [Action.runModule { tfConfig := none } true] := by
  unfold train
  have hc : ¬(env.hosts.length > 1 ∧ env.psNum > 0) := by
    rcases h with h | h <;> omega
  simp [hc]

/-- Witness for the amended C5 at `hosts = ["a"]`, `psNum = 0`. -/
theorem single_host_launch_plain_env_witness :
    train ⟨["a"], "a", 0⟩ =
      .ok [Action.runModule { tfConfig := none } true] :=
  single_host_launch_plain_env ⟨["a"], "a", 0⟩ (Or.inl rfl)

/-- C7: the liveness poller returns exactly when a probe fails and never
while probes succeed: after `N` successful probe cycles followed by a
failure it returns having performed exactly `N` success iterations, each
followed by the fixed 10-second sleep (total `10 * N` seconds); an
immediately failing probe makes it return at once; and on a run of
successes only it has not returned — there is no timeout or retry
bound. -/
theorem poller_returns_on_first_failed_probe (N : Nat)
    (rest probes : List Bool) :
    ((waitUntilMasterIsDownTrace probes).isSome ↔ false ∈ probes) ∧
    waitUntilMasterIsDownTrace (List.replicate N true ++ false :: rest) =
      some (N, 10 * N) ∧
    waitUntilMasterIsDownTrace (false :: rest) = some (0, 0) ∧
    waitUntilMasterIsDownTrace (List.replicate N true) = none := by
  refine ⟨?_, ?_, rfl, ?_⟩
  · induction probes with
    | nil => simp [waitUntilMasterIsDownTrace]
    | cons p ps ih =>
      cases p <;> simp [waitUntilMasterIsDownTrace, ih]
  · induction N with
    | zero => simp [waitUntilMasterIsDownTrace]
    | succ n ih =>
      rw [List.replicate_succ, List.cons_append]
      simp [waitUntilMasterIsDownTrace, ih, Nat.mul_succ]
  · induction N with
    | zero => rfl
    | succ n ih =>
      simp [List.replicate_succ, waitUntilMasterIsDownTrace, ih]

/-- C10: whenever topology resolution returns without raising, the
descriptor is internally consistent: the cluster mapping has a list for
the returned task type, the task index is within that list's bounds, and
the endpoint at that index is `currentHost` joined with the role's port
(2223 for `ps`, 2222 for `master`/`worker`). -/
theorem tfConfig_internally_consistent (hosts : List String) (c : String)
    (p : Nat) (t : Bool) (cfg : TfConfig)
    (h : buildTfConfig hosts c p t = .ok cfg) :
    (cfg.cluster.entry cfg.task.type).isSome ∧
    ∀ l, cfg.cluster.entry cfg.task.type = some l →
      cfg.task.index < l.length ∧
      l[cfg.task.index]? = some (c ++ ":" ++ rolePort cfg.task.type) := by
  obtain ⟨htask, hcfg⟩ := buildTfConfig_ok_iff.mp h
  rw [hcfg]
  simp only
  unfold buildTask at htask
  cases t with
  | true =>
    simp only [if_true] at htask
    cases hps : psList hosts p with
    | none => rw [hps] at htask; dsimp only at htask; cases htask
    | some ps0 =>
      rw [hps] at htask
      dsimp only at htask
      cases hidx : listIndex ps0 c with
      | none => rw [hidx] at htask; dsimp only at htask; cases htask
      | some i =>
        rw [hidx] at htask
        dsimp only at htask
        have ht : cfg.task = ⟨"ps", i⟩ := (Except.ok.inj htask).symm
        rw [ht]
        obtain ⟨hlt, hget⟩ := listIndex_spec hidx
        have hps0 : ps0 = hosts.take p := by
          unfold psList at hps
          by_cases hcond : hosts.length > 1 ∧ p > 0

          · rw [if_pos hcond] at hps; exact (Option.some_inj.mp hps).symm
          · rw [if_neg hcond] at hps; cases hps
        have hcond : hosts.length > 1 ∧ p > 0 := by
          unfold psList at hps
          by_cases hcond : hosts.length > 1 ∧ p > 0
          · exact hcond
          · rw [if_neg hcond] at hps; cases hps
        have hcl : (buildCluster hosts p).ps =
            some (hostAddresses ps0 "2223") := by
          rw [buildCluster_ps, if_pos hcond, hps0]
        refine ⟨?_, ?_⟩
        · simp [TfCluster.entry, hcl]
        · intro l hl
          simp only [TfCluster.entry] at hl
          norm_num at hl
          rw [hcl] at hl
          cases hl
          refine ⟨by rw [hostAddresses_length]; exact hlt, ?_⟩
          rw [hostAddresses_getElem?, hget]
          simp [rolePort]
  | false =>
    simp only [Bool.false_eq_true, if_false] at htask
    cases hosts with
    | nil => cases htask
    | cons h0 tl =>
      dsimp only at htask
      by_cases hc : (c == h0) = true
      · rw [if_pos hc] at htask
        have ht : cfg.task = ⟨"master", 0⟩ := (Except.ok.inj htask).symm
        rw [ht]
        have hceq : c = h0 := beq_iff_eq.mp hc
        refine ⟨by simp [TfCluster.entry], ?_⟩
        intro l hl
        simp only [TfCluster.entry] at hl
        norm_num at hl
        subst hl
        refine ⟨by simp [buildCluster, hostAddresses], ?_⟩
        simp [buildCluster, hostAddresses, rolePort, hceq]
      · rw [if_neg hc] at htask
        cases hidx : listIndex ((h0 :: tl).drop 1) c with
        | none => rw [hidx] at htask; dsimp only at htask; cases htask
        | some i =>
          rw [hidx] at htask
          dsimp only at htask
          have ht : cfg.task = ⟨"worker", i⟩ := (Except.ok.inj htask).symm
          rw [ht]
          obtain ⟨hlt, hget⟩ := listIndex_spec hidx
          have htl : ((h0 :: tl).drop 1) = tl := rfl
          rw [htl] at hlt hget
          have hne : tl.isEmpty = false := by
            cases tl with
            | nil => simp at hlt
            | cons x xs => rfl
          have hcl : (buildCluster (h0 :: tl) p).worker =
              some (hostAddresses tl "2222") := by
            simp [buildCluster, hne]
          refine ⟨?_, ?_⟩
          · simp [TfCluster.entry, hcl]
          · intro l hl
            simp only [TfCluster.entry] at hl
            norm_num at hl
            rw [hcl] at hl
            cases hl
            refine ⟨by rw [hostAddresses_length]; exact hlt, ?_⟩
            rw [hostAddresses_getElem?, hget]
            simp [rolePort]

/-- Witness for C10 at `hosts = ["a","b","c"]`, `currentHost = "b"`,
`psNum = 2`, `psTask = true`. -/
theorem tfConfig_internally_consistent_witness :
    ((TfConfig.mk
        ⟨["a:2222"], some ["a:2223", "b:2223"], some ["b:2222", "c:2222"]⟩
        "cloud" ⟨"ps", 1⟩).cluster.entry
      (TfConfig.mk
        ⟨["a:2222"], some ["a:2223", "b:2223"], some ["b:2222", "c:2222"]⟩
        "cloud" ⟨"ps", 1⟩).task.type).isSome ∧
    ∀ l,
      (TfConfig.mk
        ⟨["a:2222"], some ["a:2223", "b:2223"], some ["b:2222", "c:2222"]⟩
        "cloud" ⟨"ps", 1⟩).cluster.entry
        (TfConfig.mk
          ⟨["a:2222"], some ["a:2223", "b:2223"], some ["b:2222", "c:2222"]⟩
          "cloud" ⟨"ps", 1⟩).task.type = some l →
      (TfConfig.mk
        ⟨["a:2222"], some ["a:2223", "b:2223"], some ["b:2222", "c:2222"]⟩
        "cloud" ⟨"ps", 1⟩).task.index < l.length ∧
      l[(TfConfig.mk
        ⟨["a:2222"], some ["a:2223", "b:2223"], some ["b:2222", "c:2222"]⟩
        "cloud" ⟨"ps", 1⟩).task.index]? =
        some ("b" ++ ":" ++ rolePort
          (TfConfig.mk
            ⟨["a:2222"], some ["a:2223", "b:2223"], some ["b:2222", "c:2222"]⟩
            "cloud" ⟨"ps", 1⟩).task.type) :=
  tfConfig_internally_consistent ["a", "b", "c"] "b" 2 true
    (TfConfig.mk
      ⟨["a:2222"], some ["a:2223", "b:2223"], some ["b:2222", "c:2222"]⟩
      "cloud" ⟨"ps", 1⟩) rfl

lemma buildTask_ps_ok {hosts : List String} {c : String} {p : Nat}
    (hlen : hosts.length > 1) (hps : p > 0) (hin : c ∈ hosts.take p) :
    ∃ i, buildTask hosts c p true = .ok ⟨"ps", i⟩ := by
  have hpsl : psList hosts p = some (hosts.take p) := by
    unfold psList
    rw [if_pos ⟨hlen, hps⟩]
  obtain ⟨i, hi⟩ := listIndex_some_of_mem hin
  exact ⟨i, by simp [buildTask, hpsl, hi]⟩

lemma buildTask_worker_ok {hosts : List String} {c : String} {p : Nat}
    (hlen : hosts.length > 1) (hmem : c ∈ hosts) :
    ∃ task, buildTask hosts c p false = .ok task := by
  cases hosts with
  | nil => simp at hlen
  | cons h0 tl =>
    by_cases hc : (c == h0) = true
    · exact ⟨⟨"master", 0⟩, by simp [buildTask, hc]⟩
    · have hmtl : c ∈ tl := by
        cases hmem with
        | head => exact absurd (beq_iff_eq.mpr rfl) hc
        | tail _ h => exact h
      obtain ⟨i, hi⟩ := listIndex_some_of_mem hmtl
      exact ⟨⟨"worker", i⟩, by simp [buildTask, hc, hi]⟩

/-- C6: in a distributed job (`len(hosts) > 1`, `psNum > 0`) with
`currentHost` one of the hosts: a host among the first `psNum` hosts
performs exactly the sequence — detached parameter-server launch
(`wait = false`, ps topology), then a blocking worker launch without a
module-install step (env vars written, already-installed module run,
worker topology), then the liveness poll against `hosts[0]`; every other
host performs a single blocking `run_module` launch (which includes the
install step) with the worker topology. -/
theorem distributed_dispatch_action_sequence (env : TrainingEnv)
    (hlen : env.hosts.length > 1) (hps : env.psNum > 0)
    (hmem : env.currentHost ∈ env.hosts) :
    (env.currentHost ∈ env.hosts.take env.psNum →
      (∃ psCfg,
        buildTfConfig env.hosts env.currentHost env.psNum true = .ok psCfg) ∧
      (∃ wkCfg,
        buildTfConfig env.hosts env.currentHost env.psNum false = .ok wkCfg) ∧
      ∀ psCfg wkCfg,
        buildTfConfig env.hosts env.currentHost env.psNum true = .ok psCfg →
        buildTfConfig env.hosts env.currentHost env.psNum false = .ok wkCfg →
        train env = .ok
          [Action.runModule ⟨some psCfg⟩ false,
           Action.writeEnvVars ⟨some wkCfg⟩, Action.run ⟨some wkCfg⟩,
           Action.waitUntilMasterIsDown (env.hosts.headD "")]) ∧
    (env.currentHost ∉ env.hosts.take env.psNum →
      (∃ wkCfg,
        buildTfConfig env.hosts env.currentHost env.psNum false = .ok wkCfg) ∧
      ∀ wkCfg,
        buildTfConfig env.hosts env.currentHost env.psNum false = .ok wkCfg →
        train env = .ok [Action.runModule ⟨some wkCfg⟩ true]) := by
  constructor
  · intro hin
    obtain ⟨i, hpstask⟩ := buildTask_ps_ok hlen hps hin
    obtain ⟨wtask, hwtask⟩ := buildTask_worker_ok (p := env.psNum) hlen hmem
    refine ⟨⟨⟨buildCluster env.hosts env.psNum, "cloud", ⟨"ps", i⟩⟩,
              by simp [buildTfConfig, hpstask, Except.map]⟩,
            ⟨⟨buildCluster env.hosts env.psNum, "cloud", wtask⟩,
              by simp [buildTfConfig, hwtask, Except.map]⟩, ?_⟩
    intro psCfg wkCfg hok1 hok2
    have hcont :
        shouldRunPsOnThisHost env.hosts env.currentHost env.psNum = true := by
      simpa [shouldRunPsOnThisHost] using hin
    have e1 : runPs env = .ok [Action.runModule ⟨some psCfg⟩ false] := by
      simp [runPs, envVarsWithTfConfig, hok1, Except.map]
    have e2 : runWorker env false =
        .ok [Action.writeEnvVars ⟨some wkCfg⟩, Action.run ⟨some wkCfg⟩] := by
      simp [runWorker, envVarsWithTfConfig, hok2, Except.map]
    unfold train
    rw [if_pos ⟨hlen, hps⟩, if_pos hcont]
    rw [e1, e2]
    rfl
  · intro hnin
    obtain ⟨wtask, hwtask⟩ := buildTask_worker_ok (p := env.psNum) hlen hmem
    refine ⟨⟨⟨buildCluster env.hosts env.psNum, "cloud", wtask⟩,
              by simp [buildTfConfig, hwtask, Except.map]⟩, ?_⟩
    intro wkCfg hok2
    have hcont :
        shouldRunPsOnThisHost env.hosts env.currentHost env.psNum = false := by
      simp [shouldRunPsOnThisHost]
      simpa using hnin
    unfold train
    rw [if_pos ⟨hlen, hps⟩, if_neg (by simp [hcont])]
    simp [runWorker, envVarsWithTfConfig, hok2, Except.map]

/-- Witness for C6 at `hosts = ["a","b","c"]`, `psNum = 1`: host `"a"`
(a parameter-server host) and host `"c"` (a pure worker host). -/
theorem distributed_dispatch_action_sequence_witness :
    train ⟨["a", "b", "c"], "a", 1⟩ = .ok
      [Action.runModule ⟨some ⟨⟨["a:2222"], some ["a:2223"],
          some ["b:2222", "c:2222"]⟩, "cloud", ⟨"ps", 0⟩⟩⟩ false,
       Action.writeEnvVars ⟨some ⟨⟨["a:2222"], some ["a:2223"],
          some ["b:2222", "c:2222"]⟩, "cloud", ⟨"master", 0⟩⟩⟩,
       Action.run ⟨some ⟨⟨["a:2222"], some ["a:2223"],
          some ["b:2222", "c:2222"]⟩, "cloud", ⟨"master", 0⟩⟩⟩,
       Action.waitUntilMasterIsDown "a"] ∧
    train ⟨["a", "b", "c"], "c", 1⟩ = .ok
      [Action.runModule ⟨some ⟨⟨["a:2222"], some ["a:2223"],
          some ["b:2222", "c:2222"]⟩, "cloud", ⟨"worker", 1⟩⟩⟩ true] :=
  ⟨((distributed_dispatch_action_sequence ⟨["a", "b", "c"], "a", 1⟩
      (by decide) (by decide) (by decide)).1 (by decide)).2.2
      ⟨⟨["a:2222"], some ["a:2223"], some ["b:2222", "c:2222"]⟩, "cloud",
        ⟨"ps", 0⟩⟩
      ⟨⟨["a:2222"], some ["a:2223"], some ["b:2222", "c:2222"]⟩, "cloud",
        ⟨"master", 0⟩⟩
      rfl rfl,
   ((distributed_dispatch_action_sequence ⟨["a", "b", "c"], "c", 1⟩
      (by decide) (by decide) (by decide)).2 (by decide)).2
      ⟨⟨["a:2222"], some ["a:2223"], some ["b:2222", "c:2222"]⟩, "cloud",
        ⟨"worker", 1⟩⟩
      rfl⟩

end SagemakerTF
